import Mathlib

/-!
Verification of the host-call runtime of a Fastly Compute@Edge emulator.

The Rust sources are shallowly embedded: each host call becomes a pure
function on an explicit `Session` state, returning `Except HostErr ...`.
Conventions used throughout the embedding:

* `Ok(status.code)` in Rust becomes `.ok (session, status, outputs...)`;
  the integer is the status code the call returns to the guest.
* `Err(Trap::i32_exit(code))` becomes `.error (.exitStatus code)`; the
  specification describes this as the call "returning" that status.
* `Err(Trap::new(msg))` becomes `.error .trapped`.
* A Rust panic (`unwrap`/`expect` failure, `Vec::remove` out of bounds)
  becomes `.error .panicked`; it terminates guest execution abruptly.
* Guest linear memory is not modelled byte-by-byte: reads that the source
  performs before touching session state are passed in as already-decoded
  arguments, and buffer writes are modelled by `memWrite cap bytes`, where
  `cap` is the number of bytes of memory available at the destination
  (mirroring `io::Write` on a `&mut [u8]` slice, which writes
  `min (bytes.length) cap` bytes and reports that count).
* Handles are `i32` values modelled as `Int`; the Rust `as usize` cast
  (sign-extension to 64 bits, reinterpreted) is `asUsize`.
-/

/-- Status codes of the platform ABI (`FastlyStatus`). -/
def statusOK : Int := 0

/-- `FastlyStatus::ERROR`. -/
def statusERR : Int := 1

/-- `FastlyStatus::INVAL`. -/
def statusINVAL : Int := 2

/-- `FastlyStatus::BADF`. -/
def statusBADF : Int := 3

/-- `FastlyStatus::HTTPPARSE`. -/
def statusHTTPPARSE : Int := 8

/-- `FastlyStatus::UNSUPPORTED`. -/
def statusUNSUPPORTED : Int := 10

/-- Abnormal outcomes of a host call. -/
inductive HostErr where
  /-- `Err(Trap::i32_exit(code))`: the call ends carrying a status code. -/
  | exitStatus (code : Int)
  /-- `Err(Trap::new(..))`: a host-raised trap. -/
  | trapped
  /-- A Rust panic (e.g. `unwrap` on `None`, `Vec::remove` out of range). -/
  | panicked
deriving DecidableEq, Repr

/-- A byte buffer (`BytesMut` / `Vec<u8>`), bytes as naturals. -/
abbrev Bytes := List Nat

/-- The UTF-8 encoding of one scalar value. -/
def utf8Bytes (c : Char) : Bytes :=
  let n := c.toNat
  if n < 128 then [n]
  else if n < 2048 then [192 + n / 64, 128 + n % 64]
  else if n < 65536 then [224 + n / 4096, 128 + (n / 64) % 64, 128 + n % 64]
  else [240 + n / 262144, 128 + (n / 4096) % 64, 128 + (n / 64) % 64, 128 + n % 64]

/-- UTF-8 bytes of a string (`str::as_bytes`). -/
def bytesOf (s : String) : Bytes := (s.data.map utf8Bytes).flatten

/-- The scalar values of a string's characters. -/
def charCodes (s : String) : List Nat := s.data.map Char.toNat

/-- Lexicographic order on scalar-value sequences; on UTF-8 data this
coincides with the byte-wise order Rust's `str` comparison uses. -/
def lexLe : List Nat → List Nat → Bool
  | [], _ => true
  | _ :: _, [] => false
  | a :: as, b :: bs => if a = b then lexLe as bs else decide (a < b)

/-- The `str` order used by `sort_unstable` on header names. -/
def strLeB (a b : String) : Bool := lexLe (charCodes a) (charCodes b)

instance {ε α : Type} [DecidableEq ε] [DecidableEq α] : DecidableEq (Except ε α) :=
  fun x y =>
    match x, y with
    | .ok a, .ok b => if h : a = b then isTrue (by rw [h]) else isFalse (by simp [h])
    | .error a, .error b => if h : a = b then isTrue (by rw [h]) else isFalse (by simp [h])
    | .ok _, .error _ => isFalse (by simp)
    | .error _, .ok _ => isFalse (by simp)

/-- The Rust `h as usize` cast of an `i32` on a 64-bit target:
sign-extension to 64 bits reinterpreted as unsigned. -/
def asUsize (h : Int) : Nat := (h % (2 : Int) ^ 64).toNat

/-- Bounded guest-memory write (`memory.write(addr, bytes)` via `io::Write`
on the `&mut [u8]` slice of length `cap` that starts at `addr`): writes
`min bytes.length cap` bytes and returns that count together with the bytes
actually written. -/
def memWrite (cap : Nat) (bytes : Bytes) : Nat × Bytes :=
  (min bytes.length cap, bytes.take cap)

/-- `http::request::Parts`: the non-body parts of a request. -/
structure RequestParts where
  method : String
  uri : String
  version : Nat
  /-- The header multimap, in insertion order; `keys` of the map are the
  distinct first components. -/
  headers : List (String × String)
deriving DecidableEq, Repr

/-- `http::response::Parts`: the non-body parts of a response. -/
structure ResponseParts where
  status : Nat
  version : Nat
  headers : List (String × String)
deriving DecidableEq, Repr

/-- `Request::default()` has method GET, uri `/`, version HTTP/1.1 and no
headers. -/
def defaultRequestParts : RequestParts :=
  { method := "GET", uri := "/", version := 11, headers := [] }

/-- `Response::default()` has status 200, version HTTP/1.1 and no headers. -/
def defaultResponseParts : ResponseParts :=
  { status := 200, version := 11, headers := [] }

/-- A dictionary: text keys to text values (`HashMap<String, String>`,
modelled as an association list looked up by key). -/
abbrev Dict := List (String × String)

/-- First value associated to a key (`HashMap::get`). -/
def assocLookup (l : List (String × α)) (k : String) : Option α :=
  (l.find? (fun p => p.1 = k)).map Prod.snd

/-- The per-request session state (struct `Inner` of `handler.rs`). -/
structure Session where
  /-- The downstream request, present until consumed. -/
  request : Option (RequestParts × Bytes)
  /-- Request parts created within the handler, indexed by handle. -/
  requests : List RequestParts
  /-- Response parts, indexed by handle. -/
  responses : List ResponseParts
  /-- Body buffers, indexed by handle. -/
  bodies : List Bytes
  /-- The final handler response (parts and buffered body). -/
  response : ResponseParts × Bytes
  /-- Loaded dictionary snapshots, indexed by handle. -/
  dictionaries : List Dict
  /-- Log endpoint names, indexed by handle. -/
  endpoints : List String
deriving DecidableEq, Repr

/-- `Handler::new(request)`: a fresh session holding the downstream request,
all other fields `Default` (final response: status 200, empty body). -/
def Session.init (parts : RequestParts) (body : Bytes) : Session :=
  { request := some (parts, body)
    requests := []
    responses := []
    bodies := []
    response := (defaultResponseParts, [])
    dictionaries := []
    endpoints := [] }

/-- The distinct header names of a header multimap, sorted lexicographically
(`headers.keys()` followed by `sort_unstable`). -/
def sortedHeaderNames (headers : List (String × String)) : List String :=
  List.insertionSort (fun a b => strLeB a b = true) (headers.map Prod.fst).dedup

namespace FastlyHttpBody

/-- `fastly_http_body::close`: a no-op returning OK. -/
def close (s : Session) (_h : Int) : Except HostErr (Session × Int) :=
  .ok (s, statusOK)

/-- `fastly_http_body::new`: append an empty body buffer and write the
pre-append length of the bodies table to the out-pointer.
Result: (session, status, handle written). -/
def new (s : Session) : Except HostErr (Session × Int × Int) :=
  let index := s.bodies.length
  .ok ({ s with bodies := s.bodies ++ [[]] }, statusOK, (index : Int))

/-- `fastly_http_body::write`: `buf` is the byte slice already read from
guest memory (`memory.read(addr, size)`); it is appended to the body at
the handle and its length reported as `nwritten`.
Result: (session, status, nwritten). -/
def write (s : Session) (h : Int) (buf : Bytes) :
    Except HostErr (Session × Int × Int) :=
  match s.bodies.get? (asUsize h) with
  | some body =>
      .ok ({ s with bodies := s.bodies.set (asUsize h) (body ++ buf) },
           statusOK, (buf.length : Int))
  | none => .error (.exitStatus statusBADF)

/-- `fastly_http_body::read`: writes the whole body buffer to guest memory
(`buf_len` is ignored by the source; the write is bounded only by the
available memory `cap`) and reports the bytes written as `nread`.
Result: (session, status, nread, bytes written to guest memory). -/
def read (s : Session) (h : Int) (_buf_len : Int) (cap : Nat) :
    Except HostErr (Session × Int × Int × Bytes) :=
  match s.bodies.get? (asUsize h) with
  | some body =>
      let w := memWrite cap body
      .ok (s, statusOK, (w.1 : Int), w.2)
  | none => .error (.exitStatus statusBADF)

/-- `fastly_http_body::append`: clone the source body (checked first),
then extend the destination with it; bad handles give the BADF exit. -/
def append (s : Session) (dst src : Int) : Except HostErr (Session × Int) :=
  match s.bodies.get? (asUsize src) with
  | some srcBody =>
      match s.bodies.get? (asUsize dst) with
      | some dstBody =>
          .ok ({ s with bodies := s.bodies.set (asUsize dst) (dstBody ++ srcBody) },
               statusOK)
      | none => .error (.exitStatus statusBADF)
  | none => .error (.exitStatus statusBADF)

end FastlyHttpBody

namespace FastlyHttpReq

/-- `fastly_http_req::new`: append a default request-parts record and write
the pre-append length of the requests table to the out-pointer.
Result: (session, status, handle written). -/
def new (s : Session) : Except HostErr (Session × Int × Int) :=
  let index := s.requests.length
  .ok ({ s with requests := s.requests ++ [defaultRequestParts] },
       statusOK, (index : Int))

/-- `fastly_http_req::body_downstream_get`: `index` is the length of the
requests table; `request.take().unwrap()` panics when the downstream
request is absent; otherwise its parts are pushed onto `requests`, its
body onto `bodies`, and `index` is written to both out-pointers.
Result: (session, status, request handle written, body handle written). -/
def body_downstream_get (s : Session) :
    Except HostErr (Session × Int × Int × Int) :=
  let index := s.requests.length
  match s.request with
  | none => .error .panicked
  | some (parts, body) =>
      .ok ({ s with request := none,
                    requests := s.requests ++ [parts],
                    bodies := s.bodies ++ [body] },
           statusOK, (index : Int), (index : Int))

/-- `fastly_http_req::header_names_get`: on a valid handle, sort the
distinct header names; at cursor position write the name plus one NUL byte
(bounded by available memory `cap`; the `maxlen` argument is unused by the
source), report the count written, and report `cursor+1` when more names
follow, `-1` otherwise; past the end report `nwritten = 0, cursor = -1`.
Result: (session, status, bytes written, nwritten, ending cursor). -/
def header_names_get (s : Session) (h : Int) (cap : Nat) (cursor : Int) :
    Except HostErr (Session × Int × Bytes × Int × Int) :=
  match s.requests.get? (asUsize h) with
  | some req =>
      let names := sortedHeaderNames req.headers
      let ucursor := asUsize cursor
      match names.get? ucursor with
      | some hdr =>
          let w := memWrite cap (bytesOf hdr ++ [0])
          .ok (s, statusOK, w.2, (w.1 : Int),
               if ucursor < names.length - 1 then cursor + 1 else -1)
      | none => .ok (s, statusOK, [], 0, -1)
  | none => .error (.exitStatus statusBADF)

/-- `fastly_http_req::send`: remove the request parts and the body at the
given handles (`Vec::remove`, which panics when the index is out of
range), dispatch to the geolocation responder when the backend name is
`geolocation` and to the configured dispatcher otherwise (a dispatcher
error panics via `expect`), then append the response parts and response
body to their tables and write the two new indices.
`geoSend` is the geolocation responder of `geo.rs`, treated as an oracle
since its output depends on the geolocation resolver.
Result: (session, status, response handle written, body handle written). -/
def send (geoSend : RequestParts → Bytes → Except String (ResponseParts × Bytes))
    (backends : String → RequestParts → Bytes → Except String (ResponseParts × Bytes))
    (s : Session) (req_h body_h : Int) (backend : String) :
    Except HostErr (Session × Int × Int × Int) :=
  match s.requests.get? (asUsize req_h) with
  | none => .error .panicked
  | some parts =>
      let s1 : Session := { s with requests := s.requests.eraseIdx (asUsize req_h) }
      match s1.bodies.get? (asUsize body_h) with
      | none => .error .panicked
      | some body =>
          let s2 : Session := { s1 with bodies := s1.bodies.eraseIdx (asUsize body_h) }
          match (if backend = "geolocation" then geoSend parts body
                 else backends backend parts body) with
          | .error _ => .error .panicked
          | .ok (rparts, rbody) =>
              let s3 : Session := { s2 with responses := s2.responses ++ [rparts],
                                            bodies := s2.bodies ++ [rbody] }
              .ok (s3, statusOK,
                   ((s3.responses.length - 1 : Nat) : Int),
                   ((s3.bodies.length - 1 : Nat) : Int))

end FastlyHttpReq

namespace FastlyHttpResp

/-- `fastly_http_resp::new`: append a default response-parts record and
write the pre-append length of the responses table to the out-pointer.
Result: (session, status, handle written). -/
def new (s : Session) : Except HostErr (Session × Int × Int) :=
  let index := s.responses.length
  .ok ({ s with responses := s.responses ++ [defaultResponseParts] },
       statusOK, (index : Int))

/-- `fastly_http_resp::send_downstream`: a nonzero `stream` returns
UNSUPPORTED before touching any table; otherwise the response parts and
body are removed (`Vec::remove`, panicking on an out-of-range index) and
installed as the final response. -/
def send_downstream (s : Session) (whandle bhandle stream : Int) :
    Except HostErr (Session × Int) :=
  if stream ≠ 0 then .ok (s, statusUNSUPPORTED)
  else
    match s.responses.get? (asUsize whandle) with
    | none => .error .panicked
    | some parts =>
        let s1 : Session := { s with responses := s.responses.eraseIdx (asUsize whandle) }
        match s1.bodies.get? (asUsize bhandle) with
        | none => .error .panicked
        | some body =>
            .ok ({ s1 with bodies := s1.bodies.eraseIdx (asUsize bhandle),
                           response := (parts, body) }, statusOK)

/-- `fastly_http_resp::status_get`: write the status of the response at
the handle; an out-of-range handle gives the BADF exit and touches
nothing. Result: (session, status, status code written). -/
def status_get (s : Session) (h : Int) : Except HostErr (Session × Int × Int) :=
  match s.responses.get? (asUsize h) with
  | some resp => .ok (s, statusOK, (resp.status : Int))
  | none => .error (.exitStatus statusBADF)

/-- `fastly_http_resp::status_set`: `StatusCode::from_u16(status as u16)`
accepts codes in `[100, 1000)`; outside that range the call exits with
HTTPPARSE. -/
def status_set (s : Session) (h : Int) (code : Int) :
    Except HostErr (Session × Int) :=
  match s.responses.get? (asUsize h) with
  | some resp =>
      let v := (code % (2 : Int) ^ 16).toNat
      if 100 ≤ v ∧ v < 1000 then
        .ok ({ s with responses := s.responses.set (asUsize h) { resp with status := v } },
             statusOK)
      else .error (.exitStatus statusHTTPPARSE)
  | none => .error (.exitStatus statusBADF)

/-- `fastly_http_resp::header_names_get`: identical in shape to the
request variant, reading the response at the handle.
Result: (session, status, bytes written, nwritten, ending cursor). -/
def header_names_get (s : Session) (h : Int) (cap : Nat) (cursor : Int) :
    Except HostErr (Session × Int × Bytes × Int × Int) :=
  match s.responses.get? (asUsize h) with
  | some resp =>
      let names := sortedHeaderNames resp.headers
      let ucursor := asUsize cursor
      match names.get? ucursor with
      | some hdr =>
          let w := memWrite cap (bytesOf hdr ++ [0])
          .ok (s, statusOK, w.2, (w.1 : Int),
               if ucursor < names.length - 1 then cursor + 1 else -1)
      | none => .ok (s, statusOK, [], 0, -1)
  | none => .error (.exitStatus statusBADF)

end FastlyHttpResp

namespace FastlyDictionary

/-- `fastly_dictionary::open`: look the name up in the host-configured
table; a hit appends a clone of the dictionary and writes the pre-append
length of the dictionaries table; a miss exits with INVAL, appending
nothing. Result: (session, status, handle written). -/
def dictionary_open (dicts : List (String × Dict)) (s : Session) (name : String) :
    Except HostErr (Session × Int × Int) :=
  match assocLookup dicts name with
  | some dict =>
      let index := s.dictionaries.length
      .ok ({ s with dictionaries := s.dictionaries ++ [dict] },
           statusOK, (index : Int))
  | none => .error (.exitStatus statusINVAL)

/-- `fastly_dictionary::get`: on a valid handle, a present key writes the
value bytes (`write_bytes`, bounded only by the available memory `cap`;
the `value_max_len` argument is unused by the source) and reports the
count written; an absent key reports `nwritten = 0`; a bad handle exits
with BADF. Result: (session, status, nwritten, bytes written). -/
def get (s : Session) (h : Int) (key : String) (_val_max : Int) (cap : Nat) :
    Except HostErr (Session × Int × Int × Bytes) :=
  match s.dictionaries.get? (asUsize h) with
  | some dict =>
      match assocLookup dict key with
      | some value =>
          let w := memWrite cap (bytesOf value)
          .ok (s, statusOK, (w.1 : Int), w.2)
      | none => .ok (s, statusOK, 0, [])
  | none => .error (.exitStatus statusBADF)

end FastlyDictionary

namespace FastlyLog

/-- `fastly_log::endpoint_get`: push the endpoint name, then write the
constant `0` to the out-pointer (the source writes a literal `0`, marked
`todo: store handle`). Result: (session, status, handle written). -/
def endpoint_get (s : Session) (name : String) :
    Except HostErr (Session × Int × Int) :=
  .ok ({ s with endpoints := s.endpoints ++ [name] }, statusOK, 0)

/-- `fastly_log::write`: on a valid handle print the message and report
its byte length; a bad handle exits with BADF. -/
def write (s : Session) (h : Int) (msg : String) :
    Except HostErr (Session × Int × Int) :=
  match s.endpoints.get? (asUsize h) with
  | some _ => .ok (s, statusOK, ((bytesOf msg).length : Int))
  | none => .error (.exitStatus statusBADF)

end FastlyLog

namespace Backend

/-- `GatewayError::send`: a 502 response whose body is the text
`Unknown backend <name>` (builder defaults: version HTTP/1.1, no
headers). -/
def gatewayError (backend : String) : ResponseParts × Bytes :=
  ({ status := 502, version := 11, headers := [] },
   bytesOf ("Unknown backend " ++ backend))

/-- The `host` header rewrite `Proxy::send` performs before forwarding:
remove any `host` header, then append the configured host. -/
def hostRewrite (headers : List (String × String)) (host : String) :
    List (String × String) :=
  headers.filter (fun p => p.1 ≠ "host") ++ [("host", host)]

/-- `Proxy::send`: look the backend name up in the configured name-to-host
table; a match forwards the request through the HTTP client (`net`, an
oracle standing for the network I/O) with the `host` header rewritten;
no match falls back to `GatewayError`. -/
def proxySend (net : String → RequestParts → Bytes → Except String (ResponseParts × Bytes))
    (table : List (String × String)) (backend : String)
    (parts : RequestParts) (body : Bytes) : Except String (ResponseParts × Bytes) :=
  match assocLookup table backend with
  | some host => net host { parts with headers := hostRewrite parts.headers host } body
  | none => .ok (gatewayError backend)

end Backend

namespace Handler

/-- The read-only inputs the lifecycle driver closes over: the configured
dictionaries, the backend routing table, and oracles for the two
I/O-performing responders (the HTTP client and the geolocation backend). -/
structure Config where
  dicts : List (String × Dict)
  table : List (String × String)
  net : String → RequestParts → Bytes → Except String (ResponseParts × Bytes)
  geoSend : RequestParts → Bytes → Except String (ResponseParts × Bytes)

/-- One host call issued by the guest during `_start`, with the values the
call reads from guest memory already decoded. -/
inductive Op where
  | reqNew
  | respNew
  | bodyNew
  | bodyDownstreamGet
  | sendReq (req_h body_h : Int) (backend : String)
  | sendDownstream (whandle bhandle stream : Int)
  | dictOpen (name : String)
  | dictGet (h : Int) (key : String) (val_max : Int) (cap : Nat)
  | endpointGet (name : String)
  | logWrite (h : Int) (msg : String)
  | bodyWrite (h : Int) (buf : Bytes)
  | bodyRead (h : Int) (buf_len : Int) (cap : Nat)
  | bodyAppend (dst src : Int)
  | bodyClose (h : Int)
  | statusGet (h : Int)
  | statusSet (h : Int) (code : Int)
  | reqHeaderNamesGet (h : Int) (cap : Nat) (cursor : Int)
  | respHeaderNamesGet (h : Int) (cap : Nat) (cursor : Int)

/-- Whether an op is the `http_resp::send_downstream` host call. -/
def Op.isSendDown : Op → Bool
  | .sendDownstream _ _ _ => true
  | _ => false

/-- Apply one host call to the session, keeping only the state component
(out-pointer values are dropped by the driver). -/
def applyOp (cfg : Config) (s : Session) : Op → Except HostErr Session
  | .reqNew => (FastlyHttpReq.new s).map Prod.fst
  | .respNew => (FastlyHttpResp.new s).map Prod.fst
  | .bodyNew => (FastlyHttpBody.new s).map Prod.fst
  | .bodyDownstreamGet => (FastlyHttpReq.body_downstream_get s).map Prod.fst
  | .sendReq rh bh backend =>
      (FastlyHttpReq.send cfg.geoSend (Backend.proxySend cfg.net cfg.table)
        s rh bh backend).map Prod.fst
  | .sendDownstream wh bh stream =>
      (FastlyHttpResp.send_downstream s wh bh stream).map Prod.fst
  | .dictOpen name => (FastlyDictionary.dictionary_open cfg.dicts s name).map Prod.fst
  | .dictGet h key vmax cap => (FastlyDictionary.get s h key vmax cap).map Prod.fst
  | .endpointGet name => (FastlyLog.endpoint_get s name).map Prod.fst
  | .logWrite h msg => (FastlyLog.write s h msg).map Prod.fst
  | .bodyWrite h buf => (FastlyHttpBody.write s h buf).map Prod.fst
  | .bodyRead h blen cap => (FastlyHttpBody.read s h blen cap).map Prod.fst
  | .bodyAppend dst src => (FastlyHttpBody.append s dst src).map Prod.fst
  | .bodyClose h => (FastlyHttpBody.close s h).map Prod.fst
  | .statusGet h => (FastlyHttpResp.status_get s h).map Prod.fst
  | .statusSet h code => (FastlyHttpResp.status_set s h code).map Prod.fst
  | .reqHeaderNamesGet h cap cursor =>
      (FastlyHttpReq.header_names_get s h cap cursor).map Prod.fst
  | .respHeaderNamesGet h cap cursor =>
      (FastlyHttpResp.header_names_get s h cap cursor).map Prod.fst

/-- `Handler::run`: the guest's `_start` is a sequence of host calls; a
trap, exit or panic in any call aborts the run. On a normal return the
driver extracts `self.into_response()`, the session's final response. -/
def runTrace (cfg : Config) : Session → List Op → Except HostErr Session
  | s, [] => .ok s
  | s, op :: ops => (applyOp cfg s op).bind (fun s2 => runTrace cfg s2 ops)

/-- `Handler::into_response` after a trace: the final response of the end
state. -/
def runResponse (cfg : Config) (s : Session) (ops : List Op) :
    Except HostErr (ResponseParts × Bytes) :=
  (runTrace cfg s ops).map Session.response

end Handler

/-! ## Shared fixtures for witnesses and counterexamples -/

/-- A network oracle that always fails (no outbound connectivity). -/
def noNet : String → RequestParts → Bytes → Except String (ResponseParts × Bytes) :=
  fun _ _ _ => .error ("no network")

/-- A geolocation responder that always fails. -/
def noGeo : RequestParts → Bytes → Except String (ResponseParts × Bytes) :=
  fun _ _ => .error ("no geolocation")

/-- A session whose dictionaries table holds one open dictionary
`{foo: bar}` at handle 0. -/
def dictSession : Session :=
  { Session.init defaultRequestParts [] with dictionaries := [[("foo", "bar")]] }

/-! ## C2 -/

/-- C2: of the five handle-emitting appends, `log.endpoint_get` violates
the claim: with one endpoint already stored (table length 1 before the
append) the call still writes the constant `0` to the out-pointer — the
source writes a literal `0`, marked `// todo: store handle` — where the
claim requires `1`. -/
theorem c2_endpoint_get_bug :
    FastlyLog.endpoint_get
        { Session.init defaultRequestParts [] with endpoints := ["syslog"] }
        "stdout" =
      .ok ({ Session.init defaultRequestParts [] with
              endpoints := ["syslog", "stdout"] }, statusOK, 0) ∧
    ({ Session.init defaultRequestParts [] with
        endpoints := ["syslog"] } : Session).endpoints.length = 1 ∧
    (0 : Int) ≠ 1 := by decide

/-! ## C6 -/

/-- C6: `dictionary.open` with a configured name appends a clone of that
dictionary, writes the pre-append length of the dictionaries table to the
out-pointer, and returns OK; with an unconfigured name it ends with the
INVAL status and appends nothing (the error outcome carries no state). -/
theorem c6_dictionary_open (dicts : List (String × Dict)) (s : Session)
    (name : String) :
    (∀ d, assocLookup dicts name = some d →
      FastlyDictionary.dictionary_open dicts s name =
        .ok ({ s with dictionaries := s.dictionaries ++ [d] }, statusOK,
             (s.dictionaries.length : Int))) ∧
    (assocLookup dicts name = none →
      FastlyDictionary.dictionary_open dicts s name =
        .error (.exitStatus statusINVAL)) := by
  constructor
  · intro d hd
    simp [FastlyDictionary.dictionary_open, hd]
  · intro hn
    simp [FastlyDictionary.dictionary_open, hn]

/-- Witness for C6 at concrete inputs: the name `dict` is configured in a
one-entry table and is opened at handle 0; in the empty table it yields
INVAL. -/
theorem c6_dictionary_open_witness :
    (FastlyDictionary.dictionary_open [("dict", [("foo", "bar")])]
        (Session.init defaultRequestParts []) "dict" =
      .ok ({ Session.init defaultRequestParts [] with
              dictionaries := [[("foo", "bar")]] }, statusOK, 0)) ∧
    (FastlyDictionary.dictionary_open [] (Session.init defaultRequestParts [])
        "dict" = .error (.exitStatus statusINVAL)) := by
  constructor
  · exact (c6_dictionary_open _ _ _).1 _ (by decide)
  · exact (c6_dictionary_open _ _ _).2 (by decide)

/-! ## C7 -/

/-- C7 counterexample: dictionary `{foo: bar}` at handle 0, key `foo`,
`val_max = 1`, ample memory: the claim requires the write truncated to at
most 1 byte, but the call writes all 3 bytes of `bar` and reports
`nwritten = 3`. -/
theorem c7_counterexample :
    FastlyDictionary.get dictSession 0 "foo" 1 100 =
      .ok (dictSession, statusOK, 3, [98, 97, 114]) ∧
    ¬ ((3 : Int) ≤ 1) ∧ ([98, 97, 114] : Bytes).length = 3 := by decide

/-- C7 amended: on a valid dictionary handle, a present key writes the
value bytes bounded only by the available guest memory — the `val_max`
argument is ignored by the source — and sets `nwritten` to the byte count
written; an absent key writes `nwritten = 0`; a bad handle yields BADF. -/
theorem c7_dictionary_get (s : Session) (h : Int) (key : String)
    (vmax : Int) (cap : Nat) :
    (∀ dict, s.dictionaries.get? (asUsize h) = some dict →
      (∀ v, assocLookup dict key = some v →
        FastlyDictionary.get s h key vmax cap =
          .ok (s, statusOK, ((min (bytesOf v).length cap : Nat) : Int),
               (bytesOf v).take cap)) ∧
      (assocLookup dict key = none →
        FastlyDictionary.get s h key vmax cap = .ok (s, statusOK, 0, []))) ∧
    (s.dictionaries.get? (asUsize h) = none →
      FastlyDictionary.get s h key vmax cap =
        .error (.exitStatus statusBADF)) := by
  refine ⟨fun dict hd => ⟨fun v hv => ?_, fun hn => ?_⟩, fun hn => ?_⟩
  · unfold FastlyDictionary.get
    simp only [hd, hv, memWrite]
  · unfold FastlyDictionary.get
    simp only [hd, hn]
  · unfold FastlyDictionary.get
    rw [hn]

/-- Witness for C7 amended at concrete inputs: hit, miss and bad handle. -/
theorem c7_dictionary_get_witness :
    (FastlyDictionary.get dictSession 0 "foo" 1 100 =
      .ok (dictSession, statusOK, 3, [98, 97, 114])) ∧
    (FastlyDictionary.get dictSession 0 "nope" 1 100 =
      .ok (dictSession, statusOK, 0, [])) ∧
    (FastlyDictionary.get dictSession 5 "foo" 1 100 =
      .error (.exitStatus statusBADF)) := by
  refine ⟨?_, ?_, ?_⟩
  · exact ((c7_dictionary_get dictSession 0 "foo" 1 100).1 [("foo", "bar")]
      (by decide)).1 "bar" (by decide)
  · exact ((c7_dictionary_get dictSession 0 "nope" 1 100).1 [("foo", "bar")]
      (by decide)).2 (by decide)
  · exact (c7_dictionary_get dictSession 5 "foo" 1 100).2 (by decide)

/-! ## C10 -/

/-- C10: `http_body.read` is non-destructive: on a valid body handle the
resulting state is the very session it was given (every table unchanged),
the bytes written to guest memory and the reported `nread` are a function
of the stored buffer alone (`buf_len` plays no role), and a second read
of the same handle returns exactly the same outcome. -/
theorem c10_body_read (s : Session) (h : Int) (blen blen2 : Int) (cap : Nat) :
    ∀ body, s.bodies.get? (asUsize h) = some body →
      FastlyHttpBody.read s h blen cap =
        .ok (s, statusOK, ((memWrite cap body).1 : Int), (memWrite cap body).2) ∧
      FastlyHttpBody.read s h blen2 cap = FastlyHttpBody.read s h blen cap := by
  intro body hb
  constructor
  · unfold FastlyHttpBody.read
    rw [hb]
  · unfold FastlyHttpBody.read
    rw [hb]

/-- Witness for C10 at a concrete input: a session holding body
`[1, 2, 3]` at handle 0; two reads agree and leave the session intact. -/
theorem c10_body_read_witness :
    (FastlyHttpBody.read
        { Session.init defaultRequestParts [] with bodies := [[1, 2, 3]] }
        0 9 100 =
      .ok ({ Session.init defaultRequestParts [] with bodies := [[1, 2, 3]] },
           statusOK, 3, [1, 2, 3])) ∧
    (FastlyHttpBody.read
        { Session.init defaultRequestParts [] with bodies := [[1, 2, 3]] }
        0 7 100 =
      FastlyHttpBody.read
        { Session.init defaultRequestParts [] with bodies := [[1, 2, 3]] }
        0 9 100) := by
  exact c10_body_read _ 0 9 7 100 [1, 2, 3] (by decide)

/-! ## C1 -/

/-- C1 counterexample: on a session with empty tables, handle 0 is out of
range, yet `http_resp.send_downstream(0, 0, 0)` does not return the BADF
status: `Vec::remove` panics on the out-of-range index (the source never
checks the handle), aborting the guest. -/
theorem c1_counterexample :
    FastlyHttpResp.send_downstream (Session.init defaultRequestParts []) 0 0 0 =
      .error .panicked ∧
    (Except.error .panicked : Except HostErr (Session × Int)) ≠
      .error (.exitStatus statusBADF) ∧
    (Session.init defaultRequestParts []).responses.length ≤ asUsize 0 := by
  decide

/-- C1 amended: an out-of-range handle on an accessor such as
`http_resp.status_get` yields the BADF status and no session table is
mutated (the error outcome carries no state); but `http_req.send` and
`http_resp.send_downstream` (with `stream = 0`) never report BADF on an
out-of-range handle — they remove via `Vec::remove` and panic, aborting
the guest. -/
theorem c1_amended (s : Session) (h wh bh req_h body_h : Int)
    (backend : String)
    (geoSend : RequestParts → Bytes → Except String (ResponseParts × Bytes))
    (backends : String → RequestParts → Bytes → Except String (ResponseParts × Bytes)) :
    (s.responses.length ≤ asUsize h →
      FastlyHttpResp.status_get s h = .error (.exitStatus statusBADF)) ∧
    (s.responses.length ≤ asUsize wh →
      FastlyHttpResp.send_downstream s wh bh 0 = .error .panicked) ∧
    (s.requests.length ≤ asUsize req_h →
      FastlyHttpReq.send geoSend backends s req_h body_h backend =
        .error .panicked) := by
  refine ⟨fun hh => ?_, fun hw => ?_, fun hr => ?_⟩
  · unfold FastlyHttpResp.status_get
    rw [List.get?_eq_none.mpr hh]
  · unfold FastlyHttpResp.send_downstream
    rw [if_neg (by simp), List.get?_eq_none.mpr hw]
  · unfold FastlyHttpReq.send
    rw [List.get?_eq_none.mpr hr]

/-- Witness for C1 amended on the fresh session (all tables empty) at
handle 0. -/
theorem c1_amended_witness :
    (FastlyHttpResp.status_get (Session.init defaultRequestParts []) 0 =
      .error (.exitStatus statusBADF)) ∧
    (FastlyHttpResp.send_downstream (Session.init defaultRequestParts []) 0 0 0 =
      .error .panicked) ∧
    (FastlyHttpReq.send noGeo (Backend.proxySend noNet [])
        (Session.init defaultRequestParts []) 0 0 "origin" =
      .error .panicked) := by
  refine ⟨?_, ?_, ?_⟩
  · exact (c1_amended (Session.init defaultRequestParts []) 0 0 0 0 0 "origin"
      noGeo (Backend.proxySend noNet [])).1 (by decide)
  · exact (c1_amended (Session.init defaultRequestParts []) 0 0 0 0 0 "origin"
      noGeo (Backend.proxySend noNet [])).2.1 (by decide)
  · exact (c1_amended (Session.init defaultRequestParts []) 0 0 0 0 0 "origin"
      noGeo (Backend.proxySend noNet [])).2.2 (by decide)

/-! ## C3 -/

/-- A fresh session whose downstream body is `[7]` after the guest called
`http_body.new` once (reachable, as `c3_counterexample` shows). -/
def preBodySession : Session :=
  { Session.init defaultRequestParts [7] with bodies := [[]] }

/-- C3 counterexample: after one `http_body.new`, `body_downstream_get`
writes 0 to both out-slots, but the new body entry (the downstream body
`[7]`) sits at index 1 of the bodies table; index 0 holds the earlier
empty body, so the emitted value does not index the new body entry. -/
theorem c3_counterexample :
    (FastlyHttpBody.new (Session.init defaultRequestParts [7]) =
      .ok (preBodySession, statusOK, 0)) ∧
    (FastlyHttpReq.body_downstream_get preBodySession =
      .ok ({ preBodySession with
              request := none,
              requests := [defaultRequestParts],
              bodies := [[], [7]] },
           statusOK, 0, 0)) ∧
    ([[], [7]] : List Bytes).get? (asUsize 0) = some [] ∧
    ([] : Bytes) ≠ [7] := by decide

/-- C3 amended: the first `body_downstream_get` consumes the downstream
request, appends its parts to the requests table and its body to the
bodies table, and writes one and the same value — the length of the
requests table before the call — to both out-slots; that value indexes
the new request entry, and it indexes the new body entry as well when
the bodies and requests tables had equal length before the call (in
particular when `body_downstream_get` precedes any other table-growing
call); a second invocation panics (aborting the guest) because the
downstream request is absent. -/
theorem c3_amended (s : Session) :
    (∀ parts body, s.request = some (parts, body) →
      (FastlyHttpReq.body_downstream_get s =
        .ok ({ s with request := none,
                      requests := s.requests ++ [parts],
                      bodies := s.bodies ++ [body] },
             statusOK, (s.requests.length : Int), (s.requests.length : Int))) ∧
      ((s.requests ++ [parts]).get? s.requests.length = some parts) ∧
      (s.bodies.length = s.requests.length →
        (s.bodies ++ [body]).get? s.requests.length = some body)) ∧
    (s.request = none →
      FastlyHttpReq.body_downstream_get s = .error .panicked) := by
  refine ⟨fun parts body hreq => ⟨?_, ?_, fun hlen => ?_⟩, fun hnone => ?_⟩
  · unfold FastlyHttpReq.body_downstream_get
    rw [hreq]
  · exact List.get?_concat_length _ _
  · rw [← hlen]
    exact List.get?_concat_length _ _
  · unfold FastlyHttpReq.body_downstream_get
    rw [hnone]

/-- Witness for C3 amended: the fresh session (equal table lengths: both
empty), then the panicking second call. -/
theorem c3_amended_witness :
    (FastlyHttpReq.body_downstream_get (Session.init defaultRequestParts [7]) =
      .ok ({ Session.init defaultRequestParts [7] with
              request := none,
              requests := [defaultRequestParts],
              bodies := [[7]] },
           statusOK, 0, 0)) ∧
    (([] : List Bytes) ++ [[7]]).get? 0 = some [7] ∧
    (FastlyHttpReq.body_downstream_get
        { Session.init defaultRequestParts [7] with request := none } =
      .error .panicked) := by
  refine ⟨?_, ?_, ?_⟩
  · exact ((c3_amended (Session.init defaultRequestParts [7])).1
      defaultRequestParts [7] (by decide)).1
  · exact ((c3_amended (Session.init defaultRequestParts [7])).1
      defaultRequestParts [7] (by decide)).2.2 (by decide)
  · exact (c3_amended { Session.init defaultRequestParts [7] with
      request := none }).2 (by decide)

/-! ## C4 -/

/-- An index a table answers with `some` is within range. -/
theorem get_some_lt {α : Type} {l : List α} {n : Nat} {a : α}
    (h : l.get? n = some a) : n < l.length := by
  by_contra hn
  rw [List.get?_eq_none.mpr (Nat.le_of_not_lt hn)] at h
  cases h

/-- Session after two `http_req.new` and two `http_body.new` calls. -/
def twoReqTwoBody : Session :=
  { Session.init defaultRequestParts [] with
      requests := [defaultRequestParts, defaultRequestParts],
      bodies := [[], []] }

/-- Session after `http_req.send(0, 0, "nope")` on `twoReqTwoBody` with no
configured backends: the entries at index 0 are removed and the
gateway-error response and body are appended. -/
def afterSend : Session :=
  { Session.init defaultRequestParts [] with
      requests := [defaultRequestParts],
      responses := [{ status := 502, version := 11, headers := [] }],
      bodies := [[], bytesOf ("Unknown backend nope")] }

/-- C4 counterexample: the host emits request handle 1 (second
`http_req.new`); after `http_req.send(0, 0, ...)` removes entry 0, the
requests table has length 1 and handle 1 is no longer a valid index. -/
theorem c4_counterexample :
    (FastlyHttpReq.new (Session.init defaultRequestParts []) =
      .ok ({ Session.init defaultRequestParts [] with
              requests := [defaultRequestParts] }, statusOK, 0)) ∧
    (FastlyHttpReq.new { Session.init defaultRequestParts [] with
        requests := [defaultRequestParts] } =
      .ok ({ Session.init defaultRequestParts [] with
              requests := [defaultRequestParts, defaultRequestParts] },
           statusOK, 1)) ∧
    (FastlyHttpBody.new { Session.init defaultRequestParts [] with
        requests := [defaultRequestParts, defaultRequestParts] } =
      .ok ({ Session.init defaultRequestParts [] with
              requests := [defaultRequestParts, defaultRequestParts],
              bodies := [[]] }, statusOK, 0)) ∧
    (FastlyHttpBody.new { Session.init defaultRequestParts [] with
        requests := [defaultRequestParts, defaultRequestParts],
        bodies := [[]] } =
      .ok (twoReqTwoBody, statusOK, 1)) ∧
    (FastlyHttpReq.send noGeo (Backend.proxySend noNet []) twoReqTwoBody
        0 0 "nope" =
      .ok (afterSend, statusOK, 0, 1)) ∧
    ¬ (asUsize 1 < afterSend.requests.length) := by decide

/-- C4 amended: every handle-emitting append grows its table and leaves
the other tables' lengths unchanged, so appends preserve the validity of
previously emitted handles; but a successful `http_req.send` shrinks the
requests table by one (leaving the bodies-table length unchanged while
shifting its entries) and a successful `http_resp.send_downstream`
shrinks the responses and bodies tables by one, so the largest
previously-valid handle of a shrunk table is no longer a valid index. -/
theorem c4_amended (s : Session) (req_h body_h wh bh : Int) (backend : String)
    (geoSend : RequestParts → Bytes → Except String (ResponseParts × Bytes))
    (backends : String → RequestParts → Bytes → Except String (ResponseParts × Bytes)) :
    (∀ s2 st out, FastlyHttpReq.new s = .ok (s2, st, out) →
      s2.requests.length = s.requests.length + 1 ∧
      s2.responses.length = s.responses.length ∧
      s2.bodies.length = s.bodies.length) ∧
    (∀ s2 st out, FastlyHttpResp.new s = .ok (s2, st, out) →
      s2.responses.length = s.responses.length + 1 ∧
      s2.requests.length = s.requests.length ∧
      s2.bodies.length = s.bodies.length) ∧
    (∀ s2 st out, FastlyHttpBody.new s = .ok (s2, st, out) →
      s2.bodies.length = s.bodies.length + 1 ∧
      s2.requests.length = s.requests.length ∧
      s2.responses.length = s.responses.length) ∧
    (∀ s2 st o1 o2,
      FastlyHttpReq.send geoSend backends s req_h body_h backend =
        .ok (s2, st, o1, o2) →
      s2.requests.length + 1 = s.requests.length ∧
      s2.responses.length = s.responses.length + 1 ∧
      s2.bodies.length = s.bodies.length ∧
      ¬ (s.requests.length - 1 < s2.requests.length)) ∧
    (∀ s2 st, FastlyHttpResp.send_downstream s wh bh 0 = .ok (s2, st) →
      s2.responses.length + 1 = s.responses.length ∧
      s2.bodies.length + 1 = s.bodies.length ∧
      ¬ (s.responses.length - 1 < s2.responses.length)) := by
  refine ⟨?_, ?_, ?_, ?_, ?_⟩
  · intro s2 st out hnew
    unfold FastlyHttpReq.new at hnew
    cases hnew
    simp
  · intro s2 st out hnew
    unfold FastlyHttpResp.new at hnew
    cases hnew
    simp
  · intro s2 st out hnew
    unfold FastlyHttpBody.new at hnew
    cases hnew
    simp
  · intro s2 st o1 o2 hsend
    unfold FastlyHttpReq.send at hsend
    cases hr : s.requests.get? (asUsize req_h) with
    | none =>
      have hr2 := hr
      rw [List.get?_eq_getElem?] at hr2
      simp [hr2] at hsend
    | some parts =>
      have hr2 := hr
      rw [List.get?_eq_getElem?] at hr2
      cases hb : s.bodies.get? (asUsize body_h) with
      | none =>
        have hb2 := hb
        rw [List.get?_eq_getElem?] at hb2
        simp [hr2, hb2] at hsend
      | some body =>
        have hb2 := hb
        rw [List.get?_eq_getElem?] at hb2
        cases hdis : (if backend = "geolocation" then geoSend parts body
            else backends backend parts body) with
        | error e => simp [hr2, hb2, hdis] at hsend
        | ok rp =>
          cases rp with
          | mk rparts rbody =>
            simp only [List.get?_eq_getElem?, hr2, hb2, hdis] at hsend
            cases hsend
            have hreq := List.length_eraseIdx_add_one (get_some_lt hr)
            have hbod := List.length_eraseIdx_add_one (get_some_lt hb)
            refine ⟨by simpa using hreq, by simp, ?_, ?_⟩
            · simp only [List.length_append, List.length_cons, List.length_nil]
              omega
            · simp only []
              omega
  · intro s2 st hsd
    unfold FastlyHttpResp.send_downstream at hsd
    rw [if_neg (by simp)] at hsd
    cases hw : s.responses.get? (asUsize wh) with
    | none =>
      have hw2 := hw
      rw [List.get?_eq_getElem?] at hw2
      simp [hw2] at hsd
    | some parts =>
      have hw2 := hw
      rw [List.get?_eq_getElem?] at hw2
      cases hb : s.bodies.get? (asUsize bh) with
      | none =>
        have hb2 := hb
        rw [List.get?_eq_getElem?] at hb2
        simp [hw2, hb2] at hsd
      | some body =>
        have hb2 := hb
        rw [List.get?_eq_getElem?] at hb2
        simp only [List.get?_eq_getElem?, hw2, hb2] at hsd
        cases hsd
        have hresp := List.length_eraseIdx_add_one (get_some_lt hw)
        have hbod := List.length_eraseIdx_add_one (get_some_lt hb)
        refine ⟨by simpa using hresp, by simpa using hbod, ?_⟩
        simp only []
        omega

/-- Witness for C4 amended: on the concrete two-request session, `send`
leaves the requests table one shorter and invalidates handle 1. -/
theorem c4_amended_witness :
    afterSend.requests.length + 1 = twoReqTwoBody.requests.length ∧
    ¬ (twoReqTwoBody.requests.length - 1 < afterSend.requests.length) := by
  have h := (c4_amended twoReqTwoBody 0 0 0 0 "nope" noGeo
    (Backend.proxySend noNet [])).2.2.2.1 afterSend statusOK 0 1 (by decide)
  exact ⟨h.1, h.2.2.2⟩

/-! ## C8 -/

/-- C8: dispatching `http_req.send` (with the `Proxy` dispatcher) to a
backend name that is neither `geolocation` nor present in the routing
table removes the request and body and appends the gateway-error
response: status 502 with body exactly `Unknown backend <name>`. -/
theorem c8_unknown_backend
    (net : String → RequestParts → Bytes → Except String (ResponseParts × Bytes))
    (geoSend : RequestParts → Bytes → Except String (ResponseParts × Bytes))
    (table : List (String × String)) (s : Session) (req_h body_h : Int)
    (backend : String)
    (hgeo : backend ≠ "geolocation")
    (htab : assocLookup table backend = none) :
    ∀ parts body, s.requests.get? (asUsize req_h) = some parts →
      s.bodies.get? (asUsize body_h) = some body →
      (FastlyHttpReq.send geoSend (Backend.proxySend net table)
          s req_h body_h backend =
        .ok ({ s with
                requests := s.requests.eraseIdx (asUsize req_h),
                responses := s.responses ++
                  [{ status := 502, version := 11, headers := [] }],
                bodies := s.bodies.eraseIdx (asUsize body_h) ++
                  [bytesOf ("Unknown backend " ++ backend)] },
             statusOK, (s.responses.length : Int),
             ((s.bodies.eraseIdx (asUsize body_h)).length : Int))) ∧
      (s.responses ++
          [({ status := 502, version := 11, headers := [] } : ResponseParts)]).getLast? =
        some ({ status := 502, version := 11, headers := [] } : ResponseParts) ∧
      (s.bodies.eraseIdx (asUsize body_h) ++
          [bytesOf ("Unknown backend " ++ backend)]).getLast? =
        some (bytesOf ("Unknown backend " ++ backend)) := by
  intro parts body hr hb
  have hr2 := hr
  rw [List.get?_eq_getElem?] at hr2
  have hb2 := hb
  rw [List.get?_eq_getElem?] at hb2
  have hdis : (if backend = "geolocation" then geoSend parts body
      else Backend.proxySend net table backend parts body) =
      .ok (Backend.gatewayError backend) := by
    rw [if_neg hgeo]
    unfold Backend.proxySend
    rw [htab]
  refine ⟨?_, List.getLast?_concat _, List.getLast?_concat _⟩
  unfold FastlyHttpReq.send
  simp [List.get?_eq_getElem?, hr2, hb2, hdis, Backend.gatewayError]

/-- A session holding one request and one (empty) body at handle 0. -/
def oneReqOneBody : Session :=
  { Session.init defaultRequestParts [] with
      requests := [defaultRequestParts], bodies := [[]] }

/-- Witness for C8: an empty routing table and the backend name
`missing`. -/
theorem c8_unknown_backend_witness :
    (FastlyHttpReq.send noGeo (Backend.proxySend noNet [])
        oneReqOneBody 0 0 "missing" =
      .ok ({ oneReqOneBody with
              requests := oneReqOneBody.requests.eraseIdx (asUsize 0),
              responses := oneReqOneBody.responses ++
                [{ status := 502, version := 11, headers := [] }],
              bodies := oneReqOneBody.bodies.eraseIdx (asUsize 0) ++
                [bytesOf ("Unknown backend " ++ "missing")] },
           statusOK, (oneReqOneBody.responses.length : Int),
           ((oneReqOneBody.bodies.eraseIdx (asUsize 0)).length : Int))) ∧
    (oneReqOneBody.responses ++
        [({ status := 502, version := 11, headers := [] } : ResponseParts)]).getLast? =
      some ({ status := 502, version := 11, headers := [] } : ResponseParts) ∧
    (oneReqOneBody.bodies.eraseIdx (asUsize 0) ++
        [bytesOf ("Unknown backend " ++ "missing")]).getLast? =
      some (bytesOf ("Unknown backend " ++ "missing")) :=
  c8_unknown_backend noNet noGeo [] oneReqOneBody 0 0 "missing"
    (by decide) (by decide) defaultRequestParts [] (by decide) (by decide)

/-! ## C9 -/

/-- A successful `Except.map Prod.fst` comes from a successful pair. -/
theorem map_fst_ok {α : Type} {r : Except HostErr (Session × α)} {s2 : Session}
    (h : r.map Prod.fst = .ok s2) : ∃ out, r = .ok (s2, out) := by
  cases r with
  | error e => simp [Except.map] at h
  | ok p =>
    cases p with
    | mk a b =>
      simp [Except.map] at h
      exact ⟨b, by rw [h]⟩

/-- Frame property of the ABI surface: every modelled host call other
than `http_resp.send_downstream` leaves the session's final-response
slot untouched. -/
theorem applyOp_response (cfg : Handler.Config) (s s2 : Session)
    (op : Handler.Op) (hop : op.isSendDown = false)
    (happ : Handler.applyOp cfg s op = .ok s2) : s2.response = s.response := by
  cases op with
  | sendDownstream wh bh stream => cases hop
  | reqNew =>
    unfold Handler.applyOp at happ
    rcases map_fst_ok happ with ⟨out, hD⟩
    unfold FastlyHttpReq.new at hD
    cases hD
    rfl
  | respNew =>
    unfold Handler.applyOp at happ
    rcases map_fst_ok happ with ⟨out, hD⟩
    unfold FastlyHttpResp.new at hD
    cases hD
    rfl
  | bodyNew =>
    unfold Handler.applyOp at happ
    rcases map_fst_ok happ with ⟨out, hD⟩
    unfold FastlyHttpBody.new at hD
    cases hD
    rfl
  | bodyDownstreamGet =>
    unfold Handler.applyOp at happ
    rcases map_fst_ok happ with ⟨out, hD⟩
    unfold FastlyHttpReq.body_downstream_get at hD
    repeat' split at hD
    all_goals cases hD
    all_goals rfl
  | sendReq rh bh backend =>
    unfold Handler.applyOp at happ
    rcases map_fst_ok happ with ⟨out, hD⟩
    unfold FastlyHttpReq.send at hD
    cases hr : s.requests.get? (asUsize rh) with
    | none =>
      have hr2 := hr
      rw [List.get?_eq_getElem?] at hr2
      simp [hr2] at hD
    | some parts =>
      have hr2 := hr
      rw [List.get?_eq_getElem?] at hr2
      cases hb : s.bodies.get? (asUsize bh) with
      | none =>
        have hb2 := hb
        rw [List.get?_eq_getElem?] at hb2
        simp [hr2, hb2] at hD
      | some body =>
        have hb2 := hb
        rw [List.get?_eq_getElem?] at hb2
        cases hdis : (if backend = "geolocation" then cfg.geoSend parts body
            else Backend.proxySend cfg.net cfg.table backend parts body) with
        | error e => simp [hr2, hb2, hdis] at hD
        | ok rp =>
          cases rp with
          | mk rparts rbody =>
            simp only [List.get?_eq_getElem?, hr2, hb2, hdis] at hD
            cases hD
            rfl
  | dictOpen name =>
    unfold Handler.applyOp at happ
    rcases map_fst_ok happ with ⟨out, hD⟩
    unfold FastlyDictionary.dictionary_open at hD
    repeat' split at hD
    all_goals cases hD
    all_goals rfl
  | dictGet h key vmax cap =>
    unfold Handler.applyOp at happ
    rcases map_fst_ok happ with ⟨out, hD⟩
    unfold FastlyDictionary.get at hD
    repeat' split at hD
    all_goals cases hD
    all_goals rfl
  | endpointGet name =>
    unfold Handler.applyOp at happ
    rcases map_fst_ok happ with ⟨out, hD⟩
    unfold FastlyLog.endpoint_get at hD
    cases hD
    rfl
  | logWrite h msg =>
    unfold Handler.applyOp at happ
    rcases map_fst_ok happ with ⟨out, hD⟩
    unfold FastlyLog.write at hD
    repeat' split at hD
    all_goals cases hD
    all_goals rfl
  | bodyWrite h buf =>
    unfold Handler.applyOp at happ
    rcases map_fst_ok happ with ⟨out, hD⟩
    unfold FastlyHttpBody.write at hD
    repeat' split at hD
    all_goals cases hD
    all_goals rfl
  | bodyRead h blen cap =>
    unfold Handler.applyOp at happ
    rcases map_fst_ok happ with ⟨out, hD⟩
    unfold FastlyHttpBody.read at hD
    repeat' split at hD
    all_goals cases hD
    all_goals rfl
  | bodyAppend dst src =>
    unfold Handler.applyOp at happ
    rcases map_fst_ok happ with ⟨out, hD⟩
    unfold FastlyHttpBody.append at hD
    repeat' split at hD
    all_goals cases hD
    all_goals rfl
  | bodyClose h =>
    unfold Handler.applyOp at happ
    rcases map_fst_ok happ with ⟨out, hD⟩
    unfold FastlyHttpBody.close at hD
    cases hD
    rfl
  | statusGet h =>
    unfold Handler.applyOp at happ
    rcases map_fst_ok happ with ⟨out, hD⟩
    unfold FastlyHttpResp.status_get at hD
    repeat' split at hD
    all_goals cases hD
    all_goals rfl
  | statusSet h code =>
    unfold Handler.applyOp at happ
    rcases map_fst_ok happ with ⟨out, hD⟩
    unfold FastlyHttpResp.status_set at hD
    cases hw : s.responses.get? (asUsize h) with
    | none =>
      have hw2 := hw
      rw [List.get?_eq_getElem?] at hw2
      simp [hw2] at hD
    | some resp =>
      have hw2 := hw
      rw [List.get?_eq_getElem?] at hw2
      simp only [List.get?_eq_getElem?, hw2] at hD
      split at hD
      all_goals cases hD
      all_goals rfl
  | reqHeaderNamesGet h cap cursor =>
    unfold Handler.applyOp at happ
    rcases map_fst_ok happ with ⟨out, hD⟩
    unfold FastlyHttpReq.header_names_get at hD
    cases hw : s.requests.get? (asUsize h) with
    | none =>
      have hw2 := hw
      rw [List.get?_eq_getElem?] at hw2
      simp [hw2] at hD
    | some req =>
      have hw2 := hw
      rw [List.get?_eq_getElem?] at hw2
      simp only [List.get?_eq_getElem?, hw2] at hD
      cases hn : (sortedHeaderNames req.headers)[asUsize cursor]? with
      | none =>
        simp only [hn] at hD
        cases hD
        rfl
      | some hdr =>
        simp only [hn] at hD
        cases hD
        rfl
  | respHeaderNamesGet h cap cursor =>
    unfold Handler.applyOp at happ
    rcases map_fst_ok happ with ⟨out, hD⟩
    unfold FastlyHttpResp.header_names_get at hD
    cases hw : s.responses.get? (asUsize h) with
    | none =>
      have hw2 := hw
      rw [List.get?_eq_getElem?] at hw2
      simp [hw2] at hD
    | some resp =>
      have hw2 := hw
      rw [List.get?_eq_getElem?] at hw2
      simp only [List.get?_eq_getElem?, hw2] at hD
      cases hn : (sortedHeaderNames resp.headers)[asUsize cursor]? with
      | none =>
        simp only [hn] at hD
        cases hD
        rfl
      | some hdr =>
        simp only [hn] at hD
        cases hD
        rfl

/-- A trace of host calls none of which is `send_downstream` preserves
the final-response slot. -/
theorem runTrace_response (cfg : Handler.Config) (ops : List Handler.Op) :
    ∀ s s2 : Session, (∀ op ∈ ops, op.isSendDown = false) →
      Handler.runTrace cfg s ops = .ok s2 → s2.response = s.response := by
  induction ops with
  | nil =>
    intro s s2 _ h
    cases h
    rfl
  | cons op ops ih =>
    intro s s2 hno hrun
    unfold Handler.runTrace at hrun
    cases happ : Handler.applyOp cfg s op with
    | error e =>
      rw [happ] at hrun
      cases hrun
    | ok smid =>
      rw [happ] at hrun
      have h1 := applyOp_response cfg s smid op (hno op (by simp)) happ
      have h2 := ih smid s2 (fun o ho => hno o (by simp [ho])) hrun
      rw [h2, h1]

/-- C9: a guest run that returns normally without ever calling
`http_resp.send_downstream` leaves the extracted final response at its
zero value: status 200, empty headers, empty body. -/
theorem c9_default_response (cfg : Handler.Config) (parts : RequestParts)
    (body : Bytes) (ops : List Handler.Op) (s2 : Session)
    (hno : ∀ op ∈ ops, op.isSendDown = false)
    (hrun : Handler.runTrace cfg (Session.init parts body) ops = .ok s2) :
    s2.response = (defaultResponseParts, []) :=
  runTrace_response cfg ops (Session.init parts body) s2 hno hrun

/-- The driver configuration of the concrete C9 run: nothing configured. -/
def emptyConfig : Handler.Config :=
  { dicts := [], table := [], net := noNet, geoSend := noGeo }

/-- The session after the concrete C9 trace: one fresh request, one fresh
body, then `body_downstream_get`. -/
def c9End : Session :=
  { request := none
    requests := [defaultRequestParts, defaultRequestParts]
    responses := []
    bodies := [[], []]
    response := (defaultResponseParts, [])
    dictionaries := []
    endpoints := [] }

/-- Witness for C9: a concrete three-call trace without `send_downstream`
ends with the zero-value final response. -/
theorem c9_default_response_witness :
    (Handler.runTrace emptyConfig (Session.init defaultRequestParts [])
      [.reqNew, .bodyNew, .bodyDownstreamGet] = .ok c9End) ∧
    c9End.response = (defaultResponseParts, []) := by
  refine ⟨by decide, ?_⟩
  exact c9_default_response emptyConfig defaultRequestParts []
    [.reqNew, .bodyNew, .bodyDownstreamGet] c9End
    (by intro op hop; fin_cases hop <;> rfl) (by decide)

/-! ## C5 -/

/-- `lexLe` is total. -/
theorem lexLe_total : ∀ a b : List Nat, lexLe a b = true ∨ lexLe b a = true := by
  intro a
  induction a with
  | nil => intro b; left; rfl
  | cons x xs ih =>
    intro b
    cases b with
    | nil => right; rfl
    | cons y ys =>
      by_cases hxy : x = y
      · subst hxy
        simp only [lexLe, if_pos rfl]
        exact ih ys
      · rcases Nat.lt_or_ge x y with hlt | hge
        · left
          simp only [lexLe, if_neg hxy]
          exact decide_eq_true hlt
        · right
          have hne : ¬ (y = x) := fun he => hxy he.symm
          have hyx : y < x := Nat.lt_of_le_of_ne hge hne
          simp only [lexLe, if_neg hne]
          exact decide_eq_true hyx

/-- `lexLe` is transitive. -/
theorem lexLe_trans : ∀ a b c : List Nat,
    lexLe a b = true → lexLe b c = true → lexLe a c = true := by
  intro a
  induction a with
  | nil => intro b c _ _; rfl
  | cons x xs ih =>
    intro b c hab hbc
    cases b with
    | nil => simp [lexLe] at hab
    | cons y ys =>
      cases c with
      | nil => simp [lexLe] at hbc
      | cons z zs =>
        by_cases hxy : x = y
        · subst hxy
          simp only [lexLe, if_pos rfl] at hab
          by_cases hyz : x = z
          · subst hyz
            simp only [lexLe, if_pos rfl] at hbc ⊢
            exact ih ys zs hab hbc
          · simp only [lexLe, if_neg hyz] at hbc ⊢
            exact hbc
        · simp only [lexLe, if_neg hxy] at hab
          have hxy2 : x < y := of_decide_eq_true hab
          by_cases hyz : y = z
          · subst hyz
            simp only [lexLe, if_neg hxy]
            exact decide_eq_true hxy2
          · simp only [lexLe, if_neg hyz] at hbc
            have hyz2 : y < z := of_decide_eq_true hbc
            have hxz : x < z := Nat.lt_trans hxy2 hyz2
            simp only [lexLe, if_neg (Nat.ne_of_lt hxz)]
            exact decide_eq_true hxz

instance : IsTotal String (fun a b => strLeB a b = true) :=
  ⟨fun a b => lexLe_total (charCodes a) (charCodes b)⟩

instance : IsTrans String (fun a b => strLeB a b = true) :=
  ⟨fun a b c hab hbc =>
    lexLe_trans (charCodes a) (charCodes b) (charCodes c) hab hbc⟩

/-- The name list used by header enumeration contains a name iff it is a
key of the multimap. -/
theorem sortedHeaderNames_mem (headers : List (String × String)) (n : String) :
    n ∈ sortedHeaderNames headers ↔ n ∈ headers.map Prod.fst := by
  unfold sortedHeaderNames
  rw [(List.perm_insertionSort _ _).mem_iff, List.mem_dedup]

/-- An `i32` cast to `usize` is itself when nonnegative. -/
theorem asUsize_nonneg {c : Int} (h0 : 0 ≤ c) (h1 : c < 2 ^ 31) :
    asUsize c = c.toNat := by
  unfold asUsize
  rw [Int.emod_eq_of_lt h0 (by omega)]

/-- C5: on any valid request or response handle, header-name enumeration
uses the lexicographically sorted list of the distinct header names; a
cursor at or past the end reports `nwritten = 0, cursor_out = -1`; a
cursor in range writes the name at that position followed by exactly one
NUL byte (given enough guest memory), reports the bytes written, and
reports `cursor + 1` when more names follow, `-1` otherwise. -/
theorem c5_header_names_get (s : Session) (h : Int) (cap : Nat) (cursor : Int)
    (hc0 : 0 ≤ cursor) (hc1 : cursor < 2 ^ 31) :
    (∀ req, s.requests.get? (asUsize h) = some req →
      (sortedHeaderNames req.headers).Sorted (fun a b => strLeB a b = true) ∧
      (∀ n, n ∈ sortedHeaderNames req.headers ↔ n ∈ req.headers.map Prod.fst) ∧
      ((sortedHeaderNames req.headers).length ≤ cursor.toNat →
        FastlyHttpReq.header_names_get s h cap cursor =
          .ok (s, statusOK, [], 0, -1)) ∧
      (∀ name, (sortedHeaderNames req.headers).get? cursor.toNat = some name →
        (bytesOf name).length + 1 ≤ cap →
        FastlyHttpReq.header_names_get s h cap cursor =
          .ok (s, statusOK, bytesOf name ++ [0],
               (((bytesOf name).length + 1 : Nat) : Int),
               if cursor.toNat < (sortedHeaderNames req.headers).length - 1
               then cursor + 1 else -1))) ∧
    (∀ resp, s.responses.get? (asUsize h) = some resp →
      (sortedHeaderNames resp.headers).Sorted (fun a b => strLeB a b = true) ∧
      (∀ n, n ∈ sortedHeaderNames resp.headers ↔ n ∈ resp.headers.map Prod.fst) ∧
      ((sortedHeaderNames resp.headers).length ≤ cursor.toNat →
        FastlyHttpResp.header_names_get s h cap cursor =
          .ok (s, statusOK, [], 0, -1)) ∧
      (∀ name, (sortedHeaderNames resp.headers).get? cursor.toNat = some name →
        (bytesOf name).length + 1 ≤ cap →
        FastlyHttpResp.header_names_get s h cap cursor =
          .ok (s, statusOK, bytesOf name ++ [0],
               (((bytesOf name).length + 1 : Nat) : Int),
               if cursor.toNat < (sortedHeaderNames resp.headers).length - 1
               then cursor + 1 else -1))) := by
  have hcur : asUsize cursor = cursor.toNat := asUsize_nonneg hc0 hc1
  constructor
  · intro req hreq
    have hr2 := hreq
    rw [List.get?_eq_getElem?] at hr2
    refine ⟨List.sorted_insertionSort _ _, sortedHeaderNames_mem _, ?_, ?_⟩
    · intro hlen
      have hn : (sortedHeaderNames req.headers)[asUsize cursor]? = none := by
        rw [hcur]
        exact List.getElem?_eq_none hlen
      unfold FastlyHttpReq.header_names_get
      simp only [List.get?_eq_getElem?, hr2, hn]
    · intro name hname hcap
      have hn : (sortedHeaderNames req.headers)[cursor.toNat]? = some name := by
        rw [← List.get?_eq_getElem?]
        exact hname
      have hmin : min (bytesOf name ++ [0]).length cap = (bytesOf name).length + 1 := by
        have hl : (bytesOf name ++ [0]).length = (bytesOf name).length + 1 := by simp
        rw [hl]
        exact Nat.min_eq_left hcap
      have htake : (bytesOf name ++ [0]).take cap = bytesOf name ++ [0] := by
        apply List.take_of_length_le
        simpa using hcap
      unfold FastlyHttpReq.header_names_get
      simp only [List.get?_eq_getElem?, hr2, hcur, hn, memWrite, hmin, htake]
  · intro resp hresp
    have hr2 := hresp
    rw [List.get?_eq_getElem?] at hr2
    refine ⟨List.sorted_insertionSort _ _, sortedHeaderNames_mem _, ?_, ?_⟩
    · intro hlen
      have hn : (sortedHeaderNames resp.headers)[asUsize cursor]? = none := by
        rw [hcur]
        exact List.getElem?_eq_none hlen
      unfold FastlyHttpResp.header_names_get
      simp only [List.get?_eq_getElem?, hr2, hn]
    · intro name hname hcap
      have hn : (sortedHeaderNames resp.headers)[cursor.toNat]? = some name := by
        rw [← List.get?_eq_getElem?]
        exact hname
      have hmin : min (bytesOf name ++ [0]).length cap = (bytesOf name).length + 1 := by
        have hl : (bytesOf name ++ [0]).length = (bytesOf name).length + 1 := by simp
        rw [hl]
        exact Nat.min_eq_left hcap
      have htake : (bytesOf name ++ [0]).take cap = bytesOf name ++ [0] := by
        apply List.take_of_length_le
        simpa using hcap
      unfold FastlyHttpResp.header_names_get
      simp only [List.get?_eq_getElem?, hr2, hcur, hn, memWrite, hmin, htake]

/-- A session with one request and one response, each carrying headers
`b: 1` and `a: 2` (inserted in that order). -/
def hdrSession : Session :=
  { Session.init defaultRequestParts [] with
      requests := [{ defaultRequestParts with headers := [("b", "1"), ("a", "2")] }],
      responses := [{ defaultResponseParts with headers := [("b", "1"), ("a", "2")] }] }

/-- Witness for C5 at concrete inputs: cursor 0 yields the first sorted
name `a` with one NUL byte and cursor_out 1; cursor 5 is past the end;
the response variant behaves identically. -/
theorem c5_header_names_get_witness :
    (FastlyHttpReq.header_names_get hdrSession 0 100 0 =
      .ok (hdrSession, statusOK, [97, 0], 2, 1)) ∧
    (FastlyHttpReq.header_names_get hdrSession 0 100 5 =
      .ok (hdrSession, statusOK, [], 0, -1)) ∧
    (FastlyHttpResp.header_names_get hdrSession 0 100 0 =
      .ok (hdrSession, statusOK, [97, 0], 2, 1)) := by
  refine ⟨?_, ?_, ?_⟩
  · exact ((c5_header_names_get hdrSession 0 100 0 (by decide) (by decide)).1
      { defaultRequestParts with headers := [("b", "1"), ("a", "2")] }
      (by decide)).2.2.2 "a" (by decide) (by decide)
  · exact ((c5_header_names_get hdrSession 0 100 5 (by decide) (by decide)).1
      { defaultRequestParts with headers := [("b", "1"), ("a", "2")] }
      (by decide)).2.2.1 (by decide)
  · exact ((c5_header_names_get hdrSession 0 100 0 (by decide) (by decide)).2
      { defaultResponseParts with headers := [("b", "1"), ("a", "2")] }
      (by decide)).2.2.2 "a" (by decide) (by decide)
